import Mathlib

/- Formal model of the FB360 server (server.py): aspect-ratio
   normalization of images, GPano metadata injection, the flat-file
   gallery store, and the HTTP endpoint handlers built on them.
   Machine strings that require structural reasoning (filenames) are
   modelled as lists of characters; colors are encoded as naturals. -/

/-- Decoded raster image: pixel dimensions plus a pixel lookup function.
Colors are encoded as natural numbers; `pix x y` is meaningful for
`x < width`, `y < height`. -/
structure Img where
  width : ℕ
  height : ℕ
  pix : ℕ → ℕ → ℕ

/-- Target minimum width, `DEFAULT_WIDTH` in server.py. -/
def DEFAULT_WIDTH : ℕ := 6000

/-- Target minimum height, `DEFAULT_HEIGHT` in server.py. -/
def DEFAULT_HEIGHT : ℕ := 3000

/-- Color model of the `"black"` background default passed by the server
to `fix_aspect_ratio`. -/
def blackBg : ℕ := 0

/-- Abstract resampling kernel: given the source image, the new
dimensions and an output coordinate, produce a color.  This stands for
PIL's `Image.resize(..., LANCZOS)` interpolation, whose exact pixel
values are left uninterpreted; only the output dimensions are fixed by
`resizeImg` below. -/
def ResampleFn : Type := Img → ℕ → ℕ → ℕ → ℕ → ℕ

/-- Model of `img.resize((w2, h2), Image.Resampling.LANCZOS)`: the result
has exactly the requested dimensions and pixels given by the resampling
kernel. -/
def resizeImg (f : ResampleFn) (img : Img) (w2 h2 : ℕ) : Img :=
  ⟨w2, h2, fun x y => f img w2 h2 x y⟩

/-- Model of PIL `img.crop((l, t, r, b))`: dimensions `(r - l, b - t)`,
pixel `(x, y)` of the result is pixel `(x + l, y + t)` of the source. -/
def cropImg (img : Img) (l t r b : ℕ) : Img :=
  ⟨r - l, b - t, fun x y => img.pix (x + l) (y + t)⟩

/-- Model of `Image.new('RGB', (w2, h2), bg)` followed by
`new_img.paste(img, (px, py))`: a `w2 × h2` canvas filled with `bg`
with the source pasted at offset `(px, py)`. -/
def pasteOnCanvas (img : Img) (w2 h2 px py bg : ℕ) : Img :=
  ⟨w2, h2, fun x y =>
    if px ≤ x ∧ x < px + img.width ∧ py ≤ y ∧ y < py + img.height then
      img.pix (x - px) (y - py)
    else bg⟩

/-- Crop branch of `fix_aspect_ratio` (`mode == "crop"`, server.py lines
127-138).  Too wide: crop the sides to `width = 2 * height`; too tall:
crop top/bottom to `height = width // 2` (Python `int(width / 2.0)`). -/
def cropBranch (img : Img) : Img :=
  if (img.width : ℚ) / (img.height : ℚ) > 2 then
    cropImg img ((img.width - 2 * img.height) / 2) 0
      ((img.width - 2 * img.height) / 2 + 2 * img.height) img.height
  else
    cropImg img 0 ((img.height - img.width / 2) / 2) img.width
      ((img.height - img.width / 2) / 2 + img.width / 2)

/-- Pad branch of `fix_aspect_ratio` (`mode == "pad"`, server.py lines
140-155).  Too wide: letterbox onto a `width × (width // 2)` canvas;
otherwise pillarbox onto a `(2 * height) × height` canvas. -/
def padBranch (img : Img) (bg : ℕ) : Img :=
  if (img.width : ℚ) / (img.height : ℚ) > 2 then
    pasteOnCanvas img img.width (img.width / 2) 0
      ((img.width / 2 - img.height) / 2) bg
  else
    pasteOnCanvas img (2 * img.height) img.height
      ((2 * img.height - img.width) / 2) 0 bg

/-- Stretch branch of `fix_aspect_ratio` (`mode == "stretch"`): resize to
`(width, width // 2)` ignoring the original aspect. -/
def stretchBranch (f : ResampleFn) (img : Img) : Img :=
  resizeImg f img img.width (img.width / 2)

/-- Mode dispatch of `fix_aspect_ratio`: `"stretch"`, then `"crop"`, any
other mode string falls through to padding, mirroring the
`if/elif/else` chain of server.py lines 121-155. -/
def reshape (f : ResampleFn) (img : Img) (mode : String) (bg : ℕ) : Img :=
  if mode = "stretch" then stretchBranch f img
  else if mode = "crop" then cropBranch img
  else padBranch img bg

/-- Result of `fix_aspect_ratio`: `pre` is the image right after the
reshaping stage (before the final minimum-width upscale check), `out`
the returned image, and the flags record which code path executed. -/
structure FixOut where
  pre : Img
  out : Img
  skipBranch : Bool
  usedStretch : Bool
  usedCrop : Bool
  usedPad : Bool
  resized : Bool

/-- Model of `fix_aspect_ratio(image_data, mode, bg_color)` (server.py
lines 80-164) acting on the decoded image.  The float test
`abs(width / height - 2.0) < 0.01` is modelled with exact rational
arithmetic; `int(height * 2.0)` is `2 * height` and `int(width / 2.0)`
is natural division `width / 2`.  JPEG re-encoding preserves the pixel
grid, so the returned image is modelled directly. -/
def fixAspect (f : ResampleFn) (img : Img) (mode : String) (bg : ℕ) : FixOut :=
  if |(img.width : ℚ) / (img.height : ℚ) - 2| < 1 / 100 then
    if img.width < DEFAULT_WIDTH then
      ⟨img, resizeImg f img DEFAULT_WIDTH DEFAULT_HEIGHT, true, false, false, false, true⟩
    else
      ⟨img, img, true, false, false, false, false⟩
  else if (reshape f img mode bg).width < DEFAULT_WIDTH then
    ⟨reshape f img mode bg, resizeImg f (reshape f img mode bg) DEFAULT_WIDTH DEFAULT_HEIGHT,
      false, mode == "stretch", mode == "crop", !(mode == "stretch") && !(mode == "crop"), true⟩
  else
    ⟨reshape f img mode bg, reshape f img mode bg,
      false, mode == "stretch", mode == "crop", !(mode == "stretch") && !(mode == "crop"), false⟩

/-- Constant-color test image. -/
def constImg (w h c : ℕ) : Img := ⟨w, h, fun _ _ => c⟩

/-- Trivial concrete resampling kernel used to instantiate theorems. -/
def rs0 : ResampleFn := fun _ _ _ _ _ => 0

/-- Filenames are modelled as explicit character lists. -/
abbrev Name := List Char

/-- Raw byte payloads (request bodies, JPEG data) as lists of naturals. -/
abbrev Bytes := List ℕ

/-- Model of Python `s.rsplit('.', 1)[0]`: everything before the last
dot, or the whole string when it has no dot. -/
def rsplitHead : Name → Name
  | [] => []
  | c :: cs =>
    if '.' ∈ cs then c :: rsplitHead cs
    else if c = '.' then []
    else c :: cs

/-- Characters of the `".jpg"` extension. -/
def jpgExt : Name := ".jpg".toList

/-- Extension coercion of `api_gallery_save` (server.py lines 513-515):
`if not name.endswith('.jpg'): name = name.rsplit('.', 1)[0] + '.jpg'`. -/
def coerceJpg (name : Name) : Name :=
  if jpgExt.isSuffixOf name then name else rsplitHead name ++ jpgExt

/-- Fueled decimal digit emitter, most significant digit first. -/
def natCharsAux : ℕ → ℕ → List Char
  | 0, _ => []
  | fuel + 1, n =>
    if n = 0 then []
    else natCharsAux fuel (n / 10) ++ [Nat.digitChar (n % 10)]

/-- Decimal representation of a natural as characters, modelling the
Python f-string interpolation `f"_{counter}"` of the loop counter. -/
def natChars (n : ℕ) : List Char :=
  if n = 0 then ['0'] else natCharsAux n n

/-- Numeric value of a decimal digit character. -/
def chNat (c : Char) : ℕ := c.toNat - 48

/-- Decimal value of a most-significant-first character list; inverse of
`natChars`. -/
def charsVal (l : List Char) : ℕ := l.foldl (fun a c => 10 * a + chNat c) 0

/-- Collision-suffixed candidate of `api_gallery_save`:
`original_name.rsplit('.', 1)[0] + f"_{counter}.jpg"`. -/
def suffixName (base : Name) (k : ℕ) : Name := base ++ "_".toList ++ natChars k ++ jpgExt

/-- Generic scan-until-free loop shared by `api_gallery_save` (server.py
lines 519-525) and `api_fix_ratio` (lines 431-436): while the current
candidate name is taken, replace it by the candidate built from the
counter and increment the counter.  `fuel` bounds the iterations; the
callers pass one more than the number of existing files, which the
freshness theorem below shows is always enough, so the model computes
the same name as the unbounded Python `while` loop. -/
def collisionLoop (g : List Name) (mk : ℕ → Name) : ℕ → ℕ → Name → Name
  | 0, _, name => name
  | fuel + 1, counter, name =>
    if name ∈ g then collisionLoop g mk fuel (counter + 1) (mk counter)
    else name

/-- Filename chosen by `api_gallery_save` for suggestion `suggested`
against the existing gallery filenames `g`. -/
def gallerySaveName (g : List Name) (suggested : Name) : Name :=
  collisionLoop g (suffixName (rsplitHead (coerceJpg suggested))) (g.length + 1) 1 (coerceJpg suggested)

/-- Gallery save (POST /api/gallery, server.py lines 490-537): pick a
fresh name, then write the bytes verbatim as a new file. -/
def gallerySave (g : List (Name × Bytes)) (suggested : Name) (bytes : Bytes) : Name × List (Name × Bytes) :=
  (gallerySaveName (g.map Prod.fst) suggested,
   (gallerySaveName (g.map Prod.fst) suggested, bytes) :: g)

/-- Filesystem state: the gallery directory and its thumbs subdirectory,
as association lists from filename to file contents. -/
structure Store where
  gallery : List (Name × Bytes)
  thumbs : List (Name × Bytes)

/-- Model of DELETE /api/gallery/<filename> (server.py lines 540-557):
404 when the file does not exist, otherwise unlink it and also its
thumbnail when present.  Returns (HTTP status, success flag, new
state). -/
def apiGalleryDelete (st : Store) (filename : Name) : ℕ × Bool × Store :=
  if (st.gallery.lookup filename).isSome then
    (200, true,
      ⟨st.gallery.eraseP (fun p => p.1 == filename),
       if (st.thumbs.lookup filename).isSome then
         st.thumbs.eraseP (fun p => p.1 == filename)
       else st.thumbs⟩)
  else (404, false, st)

/-- Outcome of the `subprocess.run(['exiftool', ...])` call: the binary
may be missing (FileNotFoundError), some other exception may be
raised, or the process finishes with an exit code. -/
inductive ExifRun
  | toolMissing
  | excRaised
  | finished (code : ℤ)

/-- Argument list passed to exiftool (server.py lines 181-197). -/
def xmpArgs (w h : ℕ) (path : Name) : List String :=
  ["exiftool", "-overwrite_original",
   "-XMP-GPano:ProjectionType=equirectangular",
   "-XMP-GPano:UsePanoramaViewer=True",
   "-XMP-GPano:FullPanoWidthPixels=" ++ toString w,
   "-XMP-GPano:FullPanoHeightPixels=" ++ toString h,
   "-XMP-GPano:CroppedAreaImageWidthPixels=" ++ toString w,
   "-XMP-GPano:CroppedAreaImageHeightPixels=" ++ toString h,
   "-XMP-GPano:CroppedAreaLeftPixels=0",
   "-XMP-GPano:CroppedAreaTopPixels=0",
   "-XMP-GPano:InitialViewHeadingDegrees=180",
   "-XMP-GPano:InitialViewPitchDegrees=0",
   "-XMP-GPano:InitialViewRollDegrees=0",
   "-XMP-GPano:InitialHorizontalFOVDegrees=90",
   path.asString]

/-- Model of `inject_gpano_metadata(filepath)` (server.py lines
167-210).  `openDims` is what `Image.open` yields for the file (`none`
when it cannot be opened) and `runTool` the behavior of the exiftool
subprocess call.  Every failure branch maps to `false`; the function
is total, so it never raises. -/
def injectGpano (openDims : Option (ℕ × ℕ)) (runTool : List String → ExifRun) (path : Name) : Bool :=
  match openDims with
  | none => false
  | some (w, h) =>
    match runTool (xmpArgs w h path) with
    | .finished c => if c ≠ 0 then false else true
    | .toolMissing => false
    | .excRaised => false

/-- Execution environment for the endpoint handlers, collecting the
external effects as uninterpreted functions: image decoding
(`Image.open` plus RGB conversion, `none` = undecodable), JPEG
encoding, the resampling kernel, the dimensions obtained on reopening
the saved file for metadata injection, the exiftool subprocess, the
in-place rewrite exiftool performs on success, and thumbnail
generation (`none` = soft failure of `create_thumbnail`). -/
structure Env where
  decode : Bytes → Option Img
  encode : Img → Bytes
  resamp : ResampleFn
  openDims : Option (ℕ × ℕ)
  exifRun : List String → ExifRun
  exifWrite : Bytes → Bytes
  thumbOf : Bytes → Option Bytes

/-- Characters of the final path component, as `pathlib` isolates it. -/
def afterLastSlash (s : Name) : Name :=
  (s.reverse.takeWhile (fun c => !(c == '/'))).reverse

/-- Model of `pathlib.Path(s).stem`: the final component minus its last
suffix; a dot at position 0 or at the very end does not start a
suffix. -/
def pathStem (s : Name) : Name :=
  let nm := afterLastSlash s
  match nm.reverse.findIdx? (fun c => c == '.') with
  | none => nm
  | some j =>
    let i := nm.length - 1 - j
    if 0 < i ∧ i < nm.length - 1 then nm.take i else nm

/-- JSON response of POST /api/fix-ratio. -/
inductive FixResp
  | badRequest (msg : String)
  | serverError (msg : String)
  | ok (image : Bytes) (filename : Name) (gpano : Bool) (galleryUrl thumbUrl : Option Name)

/-- HTTP status code carried by a `FixResp`. -/
def FixResp.status : FixResp → ℕ
  | .badRequest _ => 400
  | .serverError _ => 500
  | .ok _ _ _ _ _ => 200

/-- Collision-suffixed candidate of `api_fix_ratio`:
`f"{base_name}_360_{counter}.jpg"`. -/
def cand360 (base : Name) (k : ℕ) : Name :=
  base ++ "_360_".toList ++ natChars k ++ jpgExt

/-- Model of POST /api/fix-ratio (server.py lines 393-465).  `image` is
the request's base64-decoded payload (`none` when the field is missing
or empty), `origName` the `name` field, `save` the `save_to_gallery`
flag.  Returns the JSON response and the new filesystem state. -/
def apiFixRatio (env : Env) (st : Store) (image : Option Bytes) (mode : String) (origName : Name) (save : Bool) : FixResp × Store :=
  match image with
  | none => (.badRequest ("No image provided"), st)
  | some bytes =>
    match env.decode bytes with
    | none => (.serverError ("cannot identify image file"), st)
    | some img =>
      let processed := env.encode (fixAspect env.resamp img mode blackBg).out
      let base := pathStem origName
      let fname0 := base ++ "_360.jpg".toList
      if save then
        let fname := collisionLoop (st.gallery.map Prod.fst) (cand360 base)
          (st.gallery.length + 1) 1 fname0
        let gp := injectGpano env.openDims env.exifRun fname
        let final := if gp then env.exifWrite processed else processed
        (.ok final fname gp (some ("/gallery/".toList ++ fname))
           (some ("/gallery/thumbs/".toList ++ fname)),
         ⟨(fname, final) :: st.gallery,
          match env.thumbOf final with
          | some t => (fname, t) :: st.thumbs
          | none => st.thumbs⟩)
      else
        (.ok processed fname0 false none none, st)

/-- Fields of the success dictionary built by `generate_panorama` once
an image has been extracted from the model response (server.py lines
276-321). -/
structure GenStepResult where
  success : Bool
  image : Bytes
  filename : Name
  galleryUrl : Name
  thumbUrl : Name
  gpanoInjected : Bool

/-- Model of the tail of `generate_panorama` (server.py lines 285-321):
fix the aspect ratio of the extracted image, falling back to the raw
bytes when `fix_aspect_ratio` raises (lines 286-291), then save to the
gallery under a uuid-based name, inject GPano metadata, create a
thumbnail and return a success dictionary with the re-read file. -/
def generateStep (env : Env) (st : Store) (raw : Bytes) (fixRatioFlag : Bool) (mode : String) (uuidHex : Name) : GenStepResult × Store :=
  let processed :=
    if fixRatioFlag then
      match env.decode raw with
      | none => raw
      | some img => env.encode (fixAspect env.resamp img mode blackBg).out
    else raw
  let fname := "ai_generated_".toList ++ uuidHex ++ "_360.jpg".toList
  let gp := injectGpano env.openDims env.exifRun fname
  let final := if gp then env.exifWrite processed else processed
  ({ success := true, image := final, filename := fname,
     galleryUrl := "/gallery/".toList ++ fname,
     thumbUrl := "/gallery/thumbs/".toList ++ fname,
     gpanoInjected := gp },
   ⟨(fname, final) :: st.gallery,
    match env.thumbOf final with
    | some t => (fname, t) :: st.thumbs
    | none => st.thumbs⟩)

/-- JSON body of POST /api/generate; absent fields are `none`. -/
structure GenReq where
  image : Option String
  mimeType : Option String
  prompt : Option String
  fixRatioField : Option Bool
  ratioMode : Option String

/-- Python truthiness of an optional string field (`if not x`): absent
and empty strings are falsy. -/
def truthy : Option String → Bool
  | none => false
  | some s => !(s == "")

/-- Model of stripping an optional data-URL prefix
(`if ',' in s: s = s.split(',', 1)[1]`). -/
def stripDataUrl (s : String) : String :=
  let parts := s.splitOn (",")
  if parts.length ≤ 1 then s else String.intercalate (",") (parts.drop 1)

/-- Response of POST /api/generate: a JSON error document or the success
dictionary from `generate_panorama`. -/
inductive ApiGenResp
  | err (msg : String)
  | ok (r : GenStepResult)

/-- Model of the POST /api/generate handler (server.py lines 349-390).
`gen` stands for `generate_panorama`; it is invoked only after all
request validation has passed, with arguments image data, mime type,
prompt, fix_ratio and ratio_mode. -/
def apiGenerate (gen : String → String → String → Bool → String → Except String GenStepResult) (data : Option GenReq) : ℕ × ApiGenResp :=
  match data with
  | none => (400, .err ("No JSON data provided"))
  | some d =>
    if !truthy d.image then (400, .err ("No image provided"))
    else if !truthy d.prompt then (400, .err ("No prompt provided"))
    else
      match gen (stripDataUrl (d.image.getD (""))) (d.mimeType.getD ("image/jpeg"))
          (d.prompt.getD ("")) (d.fixRatioField.getD true) (d.ratioMode.getD ("pad")) with
      | .error e => (500, .err e)
      | .ok r => (200, .ok r)

/-- Environment in which every image is undecodable and every external
tool fails; used to instantiate theorems on concrete inputs. -/
def env0 : Env :=
  ⟨fun _ => none, fun _ => [], rs0, none, fun _ => .toolMissing, id, fun _ => none⟩

/-- Environment with a fixed decoded image and a successful exiftool,
used to instantiate theorems on concrete inputs. -/
def env1 : Env :=
  ⟨fun _ => some (constImg 500 1000 3), fun i => [i.width, i.height], rs0,
   some (6000, 3000), fun _ => .finished 0, id, fun _ => none⟩

/-- Empty filesystem state. -/
def store0 : Store := ⟨[], []⟩

/-- Request body with a prompt but no image field. -/
def reqNoImage : GenReq := ⟨none, none, some ("make it a sunset"), none, none⟩

/-- Generation client that always fails; used to instantiate theorems. -/
def gen0 : String → String → String → Bool → String → Except String GenStepResult :=
  fun _ _ _ _ _ => .error ("api down")

/-- Generation client that always succeeds with an empty result; used to
instantiate theorems. -/
def gen1 : String → String → String → Bool → String → Except String GenStepResult :=
  fun _ _ _ _ _ => .ok ⟨true, [], [], [], [], false⟩

/-- Exact characterization of the float proximity test
`abs(width / height - 2.0) < 0.01` over the natural dimensions. -/
theorem near2_iff (w h : ℕ) (hh : 0 < h) :
    (|(w : ℚ) / (h : ℚ) - 2| < 1 / 100) ↔ (199 * h < 100 * w ∧ 100 * w < 201 * h) := by
  have hq : (0 : ℚ) < (h : ℚ) := by exact_mod_cast hh
  have A : ((199 : ℚ) / 100 < (w : ℚ) / (h : ℚ)) ↔ ((199 : ℚ) * h < (w : ℚ) * 100) :=
    div_lt_div_iff₀ (by norm_num) hq
  have B : ((w : ℚ) / (h : ℚ) < (201 : ℚ) / 100) ↔ ((w : ℚ) * 100 < (201 : ℚ) * h) :=
    div_lt_div_iff₀ hq (by norm_num)
  rw [abs_lt]
  constructor
  · rintro ⟨h1, h2⟩
    have a1 := A.mp (by linarith)
    have a2 := B.mp (by linarith)
    constructor
    · exact_mod_cast (by push_cast; linarith : ((199 * h : ℕ) : ℚ) < ((100 * w : ℕ) : ℚ))
    · exact_mod_cast (by push_cast; linarith : ((100 * w : ℕ) : ℚ) < ((201 * h : ℕ) : ℚ))
  · rintro ⟨h1, h2⟩
    have a1 : ((199 : ℚ) * h < (w : ℚ) * 100) := by
      have := (Nat.cast_lt (α := ℚ)).mpr h1; push_cast at this; linarith
    have a2 : ((w : ℚ) * 100 < (201 : ℚ) * h) := by
      have := (Nat.cast_lt (α := ℚ)).mpr h2; push_cast at this; linarith
    constructor
    · linarith [A.mpr a1]
    · linarith [B.mpr a2]

/-- Exact characterization of the float test `current_ratio > 2.0`. -/
theorem gt2_iff (w h : ℕ) (hh : 0 < h) :
    ((w : ℚ) / (h : ℚ) > 2) ↔ 2 * h < w := by
  have hq : (0 : ℚ) < (h : ℚ) := by exact_mod_cast hh
  rw [gt_iff_lt, lt_div_iff₀ hq]
  constructor
  · intro hx
    exact_mod_cast (by push_cast; linarith : ((2 * h : ℕ) : ℚ) < ((w : ℕ) : ℚ))
  · intro hx
    have : ((2 * h : ℕ) : ℚ) < ((w : ℕ) : ℚ) := by exact_mod_cast hx
    push_cast at this; linarith

theorem cropBranch_wide (img : Img) (hh : 0 < img.height) (hw : 2 * img.height < img.width) :
    cropBranch img = cropImg img ((img.width - 2 * img.height) / 2) 0
      ((img.width - 2 * img.height) / 2 + 2 * img.height) img.height := by
  rw [cropBranch, if_pos ((gt2_iff _ _ hh).mpr hw)]

theorem cropBranch_tall (img : Img) (hh : 0 < img.height) (hw : ¬ 2 * img.height < img.width) :
    cropBranch img = cropImg img 0 ((img.height - img.width / 2) / 2) img.width
      ((img.height - img.width / 2) / 2 + img.width / 2) := by
  rw [cropBranch, if_neg (fun hc => hw ((gt2_iff _ _ hh).mp hc))]

theorem padBranch_wide (img : Img) (bg : ℕ) (hh : 0 < img.height) (hw : 2 * img.height < img.width) :
    padBranch img bg = pasteOnCanvas img img.width (img.width / 2) 0
      ((img.width / 2 - img.height) / 2) bg := by
  rw [padBranch, if_pos ((gt2_iff _ _ hh).mpr hw)]

theorem padBranch_tall (img : Img) (bg : ℕ) (hh : 0 < img.height) (hw : ¬ 2 * img.height < img.width) :
    padBranch img bg = pasteOnCanvas img (2 * img.height) img.height
      ((2 * img.height - img.width) / 2) 0 bg := by
  rw [padBranch, if_neg (fun hc => hw ((gt2_iff _ _ hh).mp hc))]

theorem reshape_crop (f : ResampleFn) (img : Img) (bg : ℕ) :
    reshape f img "crop" bg = cropBranch img := by
  rw [reshape, if_neg (by decide), if_pos rfl]

theorem reshape_pad (f : ResampleFn) (img : Img) (bg : ℕ) :
    reshape f img "pad" bg = padBranch img bg := by
  rw [reshape, if_neg (by decide), if_neg (by decide)]

theorem fixAspect_skip_small (f : ResampleFn) (img : Img) (mode : String) (bg : ℕ)
    (h1 : |(img.width : ℚ) / (img.height : ℚ) - 2| < 1 / 100) (h2 : img.width < DEFAULT_WIDTH) :
    fixAspect f img mode bg =
      ⟨img, resizeImg f img DEFAULT_WIDTH DEFAULT_HEIGHT, true, false, false, false, true⟩ := by
  rw [fixAspect, if_pos h1, if_pos h2]

theorem fixAspect_skip_big (f : ResampleFn) (img : Img) (mode : String) (bg : ℕ)
    (h1 : |(img.width : ℚ) / (img.height : ℚ) - 2| < 1 / 100) (h2 : ¬ img.width < DEFAULT_WIDTH) :
    fixAspect f img mode bg = ⟨img, img, true, false, false, false, false⟩ := by
  rw [fixAspect, if_pos h1, if_neg h2]

theorem fixAspect_main_small (f : ResampleFn) (img : Img) (mode : String) (bg : ℕ)
    (h1 : ¬ |(img.width : ℚ) / (img.height : ℚ) - 2| < 1 / 100)
    (h2 : (reshape f img mode bg).width < DEFAULT_WIDTH) :
    fixAspect f img mode bg =
      ⟨reshape f img mode bg, resizeImg f (reshape f img mode bg) DEFAULT_WIDTH DEFAULT_HEIGHT,
        false, mode == "stretch", mode == "crop", !(mode == "stretch") && !(mode == "crop"), true⟩ := by
  rw [fixAspect, if_neg h1, if_pos h2]

theorem fixAspect_main_big (f : ResampleFn) (img : Img) (mode : String) (bg : ℕ)
    (h1 : ¬ |(img.width : ℚ) / (img.height : ℚ) - 2| < 1 / 100)
    (h2 : ¬ (reshape f img mode bg).width < DEFAULT_WIDTH) :
    fixAspect f img mode bg =
      ⟨reshape f img mode bg, reshape f img mode bg,
        false, mode == "stretch", mode == "crop", !(mode == "stretch") && !(mode == "crop"), false⟩ := by
  rw [fixAspect, if_neg h1, if_neg h2]

theorem chNat_digitChar (m : ℕ) (hm : m < 10) : chNat (Nat.digitChar m) = m := by
  interval_cases m <;> decide

theorem natCharsAux_foldl (fuel : ℕ) :
    ∀ n a, n ≤ fuel →
      List.foldl (fun a c => 10 * a + chNat c) a (natCharsAux fuel n) =
        a * 10 ^ (natCharsAux fuel n).length + n := by
  induction fuel with
  | zero =>
    intro n a hn
    interval_cases n
    simp [natCharsAux]
  | succ fuel ih =>
    intro n a hn
    by_cases hzero : n = 0
    · subst hzero; simp [natCharsAux]
    · have hdiv : n / 10 ≤ fuel := by
        have := Nat.div_lt_self (Nat.pos_of_ne_zero hzero) (by norm_num : 1 < 10)
        omega
      simp only [natCharsAux, if_neg hzero]
      rw [List.foldl_append, List.length_append]
      simp only [List.foldl_cons, List.foldl_nil, List.length_cons, List.length_nil]
      rw [ih (n / 10) a hdiv]
      rw [chNat_digitChar (n % 10) (Nat.mod_lt n (by norm_num))]
      have hmod : 10 * (n / 10) + n % 10 = n := Nat.div_add_mod n 10
      have hstep : 10 * (a * 10 ^ (natCharsAux fuel (n / 10)).length + n / 10) + n % 10 =
          10 * (a * 10 ^ (natCharsAux fuel (n / 10)).length) + (10 * (n / 10) + n % 10) := by ring
      rw [hstep, hmod, pow_succ]
      ring

theorem charsVal_natChars (n : ℕ) : charsVal (natChars n) = n := by
  by_cases hzero : n = 0
  · subst hzero; decide
  · rw [natChars, if_neg hzero, charsVal, natCharsAux_foldl n n 0 le_rfl]
    simp

theorem natChars_inj {m n : ℕ} (h : natChars m = natChars n) : m = n := by
  have hm := charsVal_natChars m
  rw [h, charsVal_natChars n] at hm
  omega

theorem suffixName_inj (base : Name) {i j : ℕ} (h : suffixName base i = suffixName base j) :
    i = j := by
  rw [suffixName, suffixName] at h
  exact natChars_inj (List.append_cancel_left (List.append_cancel_right h))

theorem rsplitHead_no_dot (s : Name) (h : '.' ∉ s) : rsplitHead s = s := by
  cases s with
  | nil => rfl
  | cons c cs =>
    have h1 : '.' ∉ cs := fun hx => h (List.mem_cons_of_mem c hx)
    have h2 : ¬ c = '.' := fun hx => h (by rw [hx]; exact List.mem_cons_self '.' cs)
    rw [rsplitHead, if_neg h1, if_neg h2]

theorem collisionLoop_not_mem (g : List Name) (mk : ℕ → Name) :
    ∀ fuel counter name,
      ((∃ j, j < fuel ∧ mk (counter + j) ∉ g) ∨ name ∉ g) →
      collisionLoop g mk fuel counter name ∉ g := by
  intro fuel
  induction fuel with
  | zero =>
    intro counter name h
    rcases h with ⟨j, hj, _⟩ | h
    · omega
    · simpa [collisionLoop] using h
  | succ fuel ih =>
    intro counter name h
    by_cases hmem : name ∈ g
    · simp only [collisionLoop, if_pos hmem]
      rcases h with ⟨j, hj, hfree⟩ | h
      · rcases Nat.eq_zero_or_pos j with rfl | hjpos
        · exact ih (counter + 1) (mk counter) (Or.inr (by simpa using hfree))
        · refine ih (counter + 1) (mk counter) (Or.inl ⟨j - 1, by omega, ?_⟩)
          have harg : counter + 1 + (j - 1) = counter + j := by omega
          rw [harg]
          exact hfree
      · exact absurd hmem h
    · simp only [collisionLoop, if_neg hmem]
      exact hmem

theorem collisionLoop_shape (g : List Name) (mk : ℕ → Name) :
    ∀ fuel counter name,
      collisionLoop g mk fuel counter name = name ∨
      ∃ k, counter ≤ k ∧ collisionLoop g mk fuel counter name = mk k := by
  intro fuel
  induction fuel with
  | zero =>
    intro counter name
    left
    simp [collisionLoop]
  | succ fuel ih =>
    intro counter name
    by_cases hmem : name ∈ g
    · simp only [collisionLoop, if_pos hmem]
      rcases ih (counter + 1) (mk counter) with heq | ⟨k, hk, heq⟩
      · exact Or.inr ⟨counter, le_rfl, heq⟩
      · exact Or.inr ⟨k, by omega, heq⟩
    · rw [collisionLoop, if_neg hmem]
      exact Or.inl rfl

theorem exists_fresh (g : List Name) (mk : ℕ → Name)
    (hinj : ∀ i j, mk i = mk j → i = j) :
    ∃ jj, jj < g.length + 1 ∧ mk (1 + jj) ∉ g := by
  by_contra hcon
  push_neg at hcon
  have hnd : ((List.range (g.length + 1)).map (fun j => mk (1 + j))).Nodup := by
    refine List.Nodup.map_on ?_ (List.nodup_range _)
    intro x _ y _ hxy
    have := hinj _ _ hxy
    omega
  have hsub : ((List.range (g.length + 1)).map (fun j => mk (1 + j))).toFinset ⊆ g.toFinset := by
    intro x hx
    rw [List.mem_toFinset, List.mem_map] at hx
    rcases hx with ⟨j, hj, rfl⟩
    rw [List.mem_toFinset]
    exact hcon j (List.mem_range.mp hj)
  have h1 : ((List.range (g.length + 1)).map (fun j => mk (1 + j))).toFinset.card =
      g.length + 1 := by
    rw [List.toFinset_card_of_nodup hnd]
    simp
  have h3 := Finset.card_le_card hsub
  have h4 := List.toFinset_card_le g
  omega

/-- C1 counterexample: the claim "for every decodable input in crop mode
the output satisfies width = 2 × height exactly" fails on a 6001×6001
input.  The crop branch computes `int(width / 2.0) = 3000`, crops to
6001×3000, and since 6001 ≥ 6000 no upscale happens, so the returned
image is 6001×3000 with width ≠ 2 × height. -/
theorem C1_counterexample :
    (fixAspect rs0 (constImg 6001 6001 0) "crop" 0).out.width ≠
      2 * (fixAspect rs0 (constImg 6001 6001 0) "crop" 0).out.height := by
  simp only [fixAspect, reshape, cropBranch, cropImg, resizeImg, constImg,
    String.reduceEq, String.reduceBEq, reduceIte]
  norm_num [DEFAULT_WIDTH, DEFAULT_HEIGHT]

/-- C1 (amended): in crop mode no padding pixels are ever introduced
(the pre-upscale image is a translated sub-rectangle of the source),
and whenever the crop branch actually runs (ratio outside the 0.01
skip window) the output satisfies 2·height ≤ width ≤ 2·height + 1,
with width = 2·height exactly except when a too-tall input has odd
width and the cropped result is not upscaled (width ≥ 6000). -/
theorem C1_amended (f : ResampleFn) (img : Img) (bg : ℕ) (hh : 0 < img.height)
    (hnear : ¬ |(img.width : ℚ) / (img.height : ℚ) - 2| < 1 / 100) :
    ((fixAspect f img "crop" bg).usedPad = false ∧
      ∃ l t, (fixAspect f img "crop" bg).pre.width ≤ img.width ∧
        (fixAspect f img "crop" bg).pre.height ≤ img.height ∧
        ∀ x y, (fixAspect f img "crop" bg).pre.pix x y = img.pix (x + l) (y + t)) ∧
    2 * (fixAspect f img "crop" bg).out.height ≤ (fixAspect f img "crop" bg).out.width ∧
    (fixAspect f img "crop" bg).out.width ≤ 2 * (fixAspect f img "crop" bg).out.height + 1 ∧
    ((img.width % 2 = 0 ∨ 2 * img.height < img.width ∨
        (fixAspect f img "crop" bg).pre.width < DEFAULT_WIDTH) →
      (fixAspect f img "crop" bg).out.width = 2 * (fixAspect f img "crop" bg).out.height) := by
  by_cases hw : 2 * img.height < img.width
  · have hre : reshape f img "crop" bg =
        cropImg img ((img.width - 2 * img.height) / 2) 0
          ((img.width - 2 * img.height) / 2 + 2 * img.height) img.height :=
      (reshape_crop f img bg).trans (cropBranch_wide img hh hw)
    by_cases h2 : (reshape f img "crop" bg).width < DEFAULT_WIDTH
    · rw [fixAspect_main_small f img "crop" bg hnear h2, hre]
      refine ⟨⟨by simp, ⟨(img.width - 2 * img.height) / 2, 0, ?_, ?_, fun x y => rfl⟩⟩,
        ?_, ?_, fun _ => ?_⟩
      · simp only [cropImg]; omega
      · simp only [cropImg]; omega
      · simp only [resizeImg, DEFAULT_WIDTH, DEFAULT_HEIGHT]; omega
      · simp only [resizeImg, DEFAULT_WIDTH, DEFAULT_HEIGHT]; omega
      · simp only [resizeImg, DEFAULT_WIDTH, DEFAULT_HEIGHT]
    · rw [fixAspect_main_big f img "crop" bg hnear h2, hre]
      refine ⟨⟨by simp, ⟨(img.width - 2 * img.height) / 2, 0, ?_, ?_, fun x y => rfl⟩⟩,
        ?_, ?_, fun _ => ?_⟩
      · simp only [cropImg]; omega
      · simp only [cropImg]; omega
      · simp only [cropImg]; omega
      · simp only [cropImg]; omega
      · simp only [cropImg]; omega
  · have hre : reshape f img "crop" bg =
        cropImg img 0 ((img.height - img.width / 2) / 2) img.width
          ((img.height - img.width / 2) / 2 + img.width / 2) :=
      (reshape_crop f img bg).trans (cropBranch_tall img hh hw)
    by_cases h2 : (reshape f img "crop" bg).width < DEFAULT_WIDTH
    · rw [fixAspect_main_small f img "crop" bg hnear h2, hre]
      refine ⟨⟨by simp, ⟨0, (img.height - img.width / 2) / 2, ?_, ?_, fun x y => rfl⟩⟩,
        ?_, ?_, fun _ => ?_⟩
      · simp only [cropImg]; omega
      · simp only [cropImg]; omega
      · simp only [resizeImg, DEFAULT_WIDTH, DEFAULT_HEIGHT]; omega
      · simp only [resizeImg, DEFAULT_WIDTH, DEFAULT_HEIGHT]; omega
      · simp only [resizeImg, DEFAULT_WIDTH, DEFAULT_HEIGHT]
    · have h2w : ¬ img.width < DEFAULT_WIDTH := by
        rw [hre] at h2; simp only [cropImg] at h2; omega
      rw [fixAspect_main_big f img "crop" bg hnear h2, hre]
      refine ⟨⟨by simp, ⟨0, (img.height - img.width / 2) / 2, ?_, ?_, fun x y => rfl⟩⟩,
        ?_, ?_, fun hcase => ?_⟩
      · simp only [cropImg]; omega
      · simp only [cropImg]; omega
      · simp only [cropImg]; omega
      · simp only [cropImg]; omega
      · simp only [cropImg] at hcase ⊢
        rcases hcase with he | hcon | hlt
        · omega
        · exact absurd hcon hw
        · exact absurd (by omega : img.width < DEFAULT_WIDTH) h2w

/-- C1 witness: the amended theorem applied to a concrete 500×1000
too-tall image (ratio 0.5, crop branch runs, result upscaled to
6000×3000). -/
theorem C1_amended_witness :
    (fixAspect rs0 (constImg 500 1000 3) "crop" 0).usedPad = false :=
  (C1_amended rs0 (constImg 500 1000 3) 0 (by norm_num [constImg])
    (by
      intro hcl
      have h := (near2_iff (constImg 500 1000 3).width (constImg 500 1000 3).height
        (by norm_num [constImg])).mp hcl
      norm_num [constImg] at h)).1.1

/-- C2 counterexample: for the 4000×4000 square in pad mode the claim
says the top and bottom regions are filled with the background color,
but the code pads left/right (pillarbox): the top row of the 8000×4000
output contains source pixels (value 7 at x = 4000), so it is not
background-filled. -/
theorem C2_counterexample :
    ¬ ∀ x, x < 8000 → (fixAspect rs0 (constImg 4000 4000 7) "pad" 0).out.pix x 0 = 0 := by
  intro hcl
  have h7 : (fixAspect rs0 (constImg 4000 4000 7) "pad" 0).out.pix 4000 0 = 7 := by
    simp only [fixAspect, reshape, padBranch, pasteOnCanvas, resizeImg, constImg,
      String.reduceEq, String.reduceBEq, reduceIte]
    norm_num [DEFAULT_WIDTH, DEFAULT_HEIGHT]
  have h0 := hcl 4000 (by norm_num)
  rw [h7] at h0
  exact absurd h0 (by norm_num)

/-- C2 (amended): a 4000×4000 input in pad mode yields an 8000×4000
output whose original content spans the full height, centered
horizontally at x-offset 2000, with the left (x < 2000) and right
(x ≥ 6000) regions filled with the background color. -/
theorem C2_amended (f : ResampleFn) (p : ℕ → ℕ → ℕ) (bg : ℕ) :
    (fixAspect f ⟨4000, 4000, p⟩ "pad" bg).out.width = 8000 ∧
    (fixAspect f ⟨4000, 4000, p⟩ "pad" bg).out.height = 4000 ∧
    (∀ x y, x < 2000 → (fixAspect f ⟨4000, 4000, p⟩ "pad" bg).out.pix x y = bg) ∧
    (∀ x y, 6000 ≤ x → (fixAspect f ⟨4000, 4000, p⟩ "pad" bg).out.pix x y = bg) ∧
    (∀ x y, 2000 ≤ x → x < 6000 → y < 4000 →
      (fixAspect f ⟨4000, 4000, p⟩ "pad" bg).out.pix x y = p (x - 2000) y) := by
  have hnear : ¬ |(((⟨4000, 4000, p⟩ : Img).width : ℕ) : ℚ) /
      (((⟨4000, 4000, p⟩ : Img).height : ℕ) : ℚ) - 2| < 1 / 100 := by
    norm_num
  have hre : reshape f (⟨4000, 4000, p⟩ : Img) "pad" bg =
      pasteOnCanvas ⟨4000, 4000, p⟩ 8000 4000 2000 0 bg := by
    refine (reshape_pad f _ bg).trans ?_
    rw [padBranch_tall _ bg (by norm_num) (by norm_num)]
    norm_num
  have h2 : ¬ (reshape f (⟨4000, 4000, p⟩ : Img) "pad" bg).width < DEFAULT_WIDTH := by
    rw [hre]
    simp [pasteOnCanvas, DEFAULT_WIDTH]
  rw [fixAspect_main_big f ⟨4000, 4000, p⟩ "pad" bg hnear h2, hre]
  refine ⟨rfl, rfl, ?_, ?_, ?_⟩
  · intro x y hx
    simp only [pasteOnCanvas]
    rw [if_neg (by omega)]
  · intro x y hx
    simp only [pasteOnCanvas]
    rw [if_neg (by omega)]
  · intro x y hx1 hx2 hy
    simp only [pasteOnCanvas]
    rw [if_pos (by refine ⟨hx1, ?_, ?_, ?_⟩ <;> omega)]
    simp

/-- C2 witness: the amended theorem applied to a constant-7 source with
background 9; the left padding region pixel (0, 0) is background. -/
theorem C2_amended_witness :
    (fixAspect rs0 ⟨4000, 4000, fun _ _ => 7⟩ "pad" 9).out.pix 0 0 = 9 :=
  (C2_amended rs0 (fun _ _ => 7) 9).2.2.1 0 0 (by norm_num)

/-- C3 counterexample: a 1985×1000 image has ratio 1.985, inside the
claim's window [1.98, 2.02], yet the code's own test `|r − 2| < 0.01`
is false there, so crop mode does crop it: the pre-upscale height is
992, not the source height 1000. -/
theorem C3_counterexample :
    ((198 : ℚ) / 100 ≤ ((constImg 1985 1000 0).width : ℚ) / ((constImg 1985 1000 0).height : ℚ) ∧
      ((constImg 1985 1000 0).width : ℚ) / ((constImg 1985 1000 0).height : ℚ) ≤ (202 : ℚ) / 100) ∧
    (fixAspect rs0 (constImg 1985 1000 0) "crop" 0).usedCrop = true ∧
    (fixAspect rs0 (constImg 1985 1000 0) "crop" 0).pre.height = 992 := by
  refine ⟨⟨by norm_num [constImg], by norm_num [constImg]⟩, ?_, ?_⟩
  all_goals
    simp only [fixAspect, reshape, cropBranch, cropImg, resizeImg, constImg,
      String.reduceEq, String.reduceBEq, reduceIte]
    norm_num [DEFAULT_WIDTH, DEFAULT_HEIGHT, abs_lt]

/-- C3 (amended): when the ratio satisfies the code's skip test
`|width/height − 2| < 0.01` (strictly tighter than the claimed
[1.98, 2.02] window), no cropping, padding or stretching happens in
any mode: below 6000 px width the image is resampled to 6000×3000,
otherwise it is returned unchanged up to JPEG re-encoding. -/
theorem C3_amended (f : ResampleFn) (img : Img) (mode : String) (bg : ℕ)
    (hnear : |(img.width : ℚ) / (img.height : ℚ) - 2| < 1 / 100) :
    (fixAspect f img mode bg).skipBranch = true ∧
    (fixAspect f img mode bg).usedCrop = false ∧
    (fixAspect f img mode bg).usedPad = false ∧
    (fixAspect f img mode bg).usedStretch = false ∧
    (fixAspect f img mode bg).pre = img ∧
    (img.width < DEFAULT_WIDTH →
      (fixAspect f img mode bg).out = resizeImg f img DEFAULT_WIDTH DEFAULT_HEIGHT ∧
      (fixAspect f img mode bg).resized = true) ∧
    (DEFAULT_WIDTH ≤ img.width →
      (fixAspect f img mode bg).out = img ∧ (fixAspect f img mode bg).resized = false) := by
  by_cases h2 : img.width < DEFAULT_WIDTH
  · rw [fixAspect_skip_small f img mode bg hnear h2]
    exact ⟨rfl, rfl, rfl, rfl, rfl, fun _ => ⟨rfl, rfl⟩, fun hge => absurd h2 (by omega)⟩
  · rw [fixAspect_skip_big f img mode bg hnear h2]
    exact ⟨rfl, rfl, rfl, rfl, rfl, fun hlt => absurd hlt h2, fun _ => ⟨rfl, rfl⟩⟩

/-- C3 witness: the amended theorem applied to a 4000×2000 image (exact
2:1 ratio) in crop mode; the skip branch runs. -/
theorem C3_amended_witness :
    (fixAspect rs0 (constImg 4000 2000 5) "crop" 0).skipBranch = true :=
  (C3_amended rs0 (constImg 4000 2000 5) "crop" 0 (by norm_num [constImg])).1

/-- C4: a gallery save never lands on an existing filename (so no file
is overwritten and existing contents stay reachable unchanged), and the
stored name is either the jpg-coerced suggestion or that name with a
numeric `_k` suffix spliced before the extension; on an actual
collision it is always the suffixed form.  The concrete scenario holds:
saving "photo.png" into an empty gallery stores "photo.jpg", and a
second save of the same name stores "photo_1.jpg". -/
theorem C4_collision_safe :
    (∀ (g : List (Name × Bytes)) (suggested : Name) (bytes : Bytes),
      (gallerySave g suggested bytes).1 ∉ g.map Prod.fst ∧
      (∀ k v, (k, v) ∈ g → (gallerySave g suggested bytes).2.lookup k = g.lookup k) ∧
      ((gallerySave g suggested bytes).1 = coerceJpg suggested ∨
        ∃ n, 1 ≤ n ∧ (gallerySave g suggested bytes).1 =
          suffixName (rsplitHead (coerceJpg suggested)) n) ∧
      (coerceJpg suggested ∈ g.map Prod.fst →
        ∃ n, 1 ≤ n ∧ (gallerySave g suggested bytes).1 =
          suffixName (rsplitHead (coerceJpg suggested)) n)) ∧
    gallerySaveName [] ("photo.png".toList) = "photo.jpg".toList ∧
    (gallerySave [("photo.jpg".toList, [0])] ("photo.png".toList) [1]).1 =
      "photo_1.jpg".toList := by
  have main : ∀ (gnames : List Name) (suggested : Name),
      gallerySaveName gnames suggested ∉ gnames ∧
      (gallerySaveName gnames suggested = coerceJpg suggested ∨
        ∃ n, 1 ≤ n ∧ gallerySaveName gnames suggested =
          suffixName (rsplitHead (coerceJpg suggested)) n) := by
    intro gnames suggested
    unfold gallerySaveName
    constructor
    · apply collisionLoop_not_mem
      left
      obtain ⟨jj, hjj, hfree⟩ := exists_fresh gnames
        (suffixName (rsplitHead (coerceJpg suggested)))
        (fun i j h => suffixName_inj _ h)
      exact ⟨jj, hjj, hfree⟩
    · rcases collisionLoop_shape gnames (suffixName (rsplitHead (coerceJpg suggested)))
        (gnames.length + 1) 1 (coerceJpg suggested) with heq | ⟨k, hk, heq⟩
      · exact Or.inl heq
      · exact Or.inr ⟨k, hk, heq⟩
  refine ⟨?_, by decide, by decide⟩
  intro g suggested bytes
  have hmain := main (g.map Prod.fst) suggested
  refine ⟨hmain.1, ?_, hmain.2, ?_⟩
  · intro k v hkv
    have hkmem : k ∈ g.map Prod.fst := List.mem_map.mpr ⟨(k, v), hkv, rfl⟩
    have hne : k ≠ gallerySaveName (g.map Prod.fst) suggested :=
      fun he => hmain.1 (he ▸ hkmem)
    have hbeq : (k == gallerySaveName (g.map Prod.fst) suggested) = false :=
      beq_eq_false_iff_ne.mpr hne
    show List.lookup k ((gallerySaveName (g.map Prod.fst) suggested, bytes) :: g) =
      List.lookup k g
    simp [List.lookup, hbeq]
  · intro hcol
    rcases hmain.2 with heq | hsuf
    · exact absurd (by rw [heq]; exact hcol) hmain.1
    · exact hsuf

/-- C4 witness: the freshness and content-preservation conclusions at
the concrete second-save scenario: looking up the pre-existing
"photo.jpg" after the save returns its original contents. -/
theorem C4_collision_safe_witness :
    (gallerySave [("photo.jpg".toList, [0])] ("photo.png".toList) [1]).2.lookup
        ("photo.jpg".toList) =
      ([("photo.jpg".toList, [0])] : List (Name × Bytes)).lookup ("photo.jpg".toList) :=
  (C4_collision_safe.1 [("photo.jpg".toList, [0])] ("photo.png".toList) [1]).2.1
    ("photo.jpg".toList) [0] (by decide)

/-- C5 counterexample: the claim says every caller surfaces a decode
failure as a request failure, but `generate_panorama` catches the
exception from `fix_aspect_ratio` and continues with the raw bytes: on
an environment where the bytes are undecodable the pipeline still
returns success, carrying the unprocessed image. -/
theorem C5_counterexample :
    env0.decode [1, 2, 3] = none ∧
    (generateStep env0 store0 [1, 2, 3] true "pad" []).1.success = true ∧
    (generateStep env0 store0 [1, 2, 3] true "pad" []).1.image = [1, 2, 3] := by
  exact ⟨rfl, rfl, rfl⟩

/-- C5 (amended): on undecodable image bytes `/api/fix-ratio` fails the
request with a 500 error and leaves the filesystem untouched, while
the `/api/generate` pipeline catches the decode failure and continues
with the raw unprocessed bytes, returning success; neither path
crashes (both handlers stay total). -/
theorem C5_amended (env : Env) (st : Store) (bytes : Bytes) (mode : String) (nm : Name)
    (save : Bool) (uuidHex : Name) (hdec : env.decode bytes = none) :
    apiFixRatio env st (some bytes) mode nm save =
      (.serverError ("cannot identify image file"), st) ∧
    (apiFixRatio env st (some bytes) mode nm save).1.status = 500 ∧
    (generateStep env st bytes true mode uuidHex).1.success = true ∧
    (generateStep env st bytes true mode uuidHex).1.image =
      (if injectGpano env.openDims env.exifRun
          ("ai_generated_".toList ++ uuidHex ++ "_360.jpg".toList)
        then env.exifWrite bytes else bytes) := by
  have h1 : apiFixRatio env st (some bytes) mode nm save =
      (.serverError ("cannot identify image file"), st) := by
    simp [apiFixRatio, hdec]
  refine ⟨h1, by rw [h1]; rfl, rfl, ?_⟩
  simp [generateStep, hdec]

/-- C5 witness: the amended theorem at the all-failing environment with
concrete bytes. -/
theorem C5_amended_witness :
    apiFixRatio env0 store0 (some [1, 2, 3]) "pad" [] true =
      (.serverError ("cannot identify image file"), store0) :=
  (C5_amended env0 store0 [1, 2, 3] "pad" [] true [] rfl).1

/-- C6: deleting a filename that does not exist in the gallery returns
404 with success = false and leaves both the gallery and the thumbs
directory exactly as they were. -/
theorem C6_delete_missing (st : Store) (filename : Name)
    (habs : st.gallery.lookup filename = none) :
    apiGalleryDelete st filename = (404, false, st) := by
  simp [apiGalleryDelete, habs]

/-- C6 witness: deleting from the empty gallery. -/
theorem C6_delete_missing_witness :
    apiGalleryDelete store0 ("a.jpg".toList) = (404, false, store0) :=
  C6_delete_missing store0 ("a.jpg".toList) rfl

/-- C7: a generate request with a prompt but no image field is rejected
with 400 "No image provided", and the outcome does not depend on the
generation client at all, i.e. the external client is never invoked. -/
theorem C7_no_image
    (gen gen2 : String → String → String → Bool → String → Except String GenStepResult)
    (d : GenReq) (himg : d.image = none) (_hp : truthy d.prompt = true) :
    apiGenerate gen (some d) = (400, .err ("No image provided")) ∧
    apiGenerate gen (some d) = apiGenerate gen2 (some d) := by
  have ht : truthy d.image = false := by rw [himg]; rfl
  constructor
  · simp [apiGenerate, ht]
  · simp [apiGenerate, ht]

/-- C7 witness: concrete request with prompt only, two different
clients. -/
theorem C7_no_image_witness :
    apiGenerate gen0 (some reqNoImage) = (400, .err ("No image provided")) :=
  (C7_no_image gen0 gen1 reqNoImage rfl (by decide)).1

/-- C8: the metadata injector is a total boolean function (it cannot
raise): it returns false when the image cannot be opened, when the
exiftool binary is missing, when the subprocess raises, and when
exiftool exits non-zero; and the generation pipeline returns success
regardless of the injector's outcome, i.e. callers continue. -/
theorem C8_soft_failure :
    (∀ (runTool : List String → ExifRun) (path : Name),
      injectGpano none runTool path = false) ∧
    (∀ (w h : ℕ) (runTool : List String → ExifRun) (path : Name),
      runTool (xmpArgs w h path) = .toolMissing →
        injectGpano (some (w, h)) runTool path = false) ∧
    (∀ (w h : ℕ) (runTool : List String → ExifRun) (path : Name),
      runTool (xmpArgs w h path) = .excRaised →
        injectGpano (some (w, h)) runTool path = false) ∧
    (∀ (w h : ℕ) (runTool : List String → ExifRun) (path : Name) (c : ℤ),
      runTool (xmpArgs w h path) = .finished c → c ≠ 0 →
        injectGpano (some (w, h)) runTool path = false) ∧
    (∀ (openDims : Option (ℕ × ℕ)) (runTool : List String → ExifRun) (path : Name),
      injectGpano openDims runTool path = true ∨ injectGpano openDims runTool path = false) ∧
    (∀ (env : Env) (st : Store) (raw : Bytes) (fr : Bool) (mode : String) (u : Name),
      (generateStep env st raw fr mode u).1.success = true) := by
  refine ⟨?_, ?_, ?_, ?_, ?_, ?_⟩
  · intro runTool path; rfl
  · intro w h runTool path hrun; simp [injectGpano, hrun]
  · intro w h runTool path hrun; simp [injectGpano, hrun]
  · intro w h runTool path c hrun hc; simp [injectGpano, hrun, hc]
  · intro o r p; cases hx : injectGpano o r p
    · exact Or.inr rfl
    · exact Or.inl rfl
  · intro env st raw fr mode u; rfl

/-- C8 witness: concrete missing-tool run. -/
theorem C8_soft_failure_witness :
    injectGpano (some (6000, 3000)) (fun _ => .toolMissing) ("x.jpg".toList) = false :=
  C8_soft_failure.2.1 6000 3000 (fun _ => .toolMissing) ("x.jpg".toList) rfl

/-- C9: every stored gallery filename ends in ".jpg"; when the suggested
name does not already end in ".jpg" exactly the text after the last
dot is replaced, a dotless name just gets ".jpg" appended, and the
multi-dot example "a.b.c" is coerced to "a.b.jpg". -/
theorem C9_jpg_extension :
    (∀ name : Name, jpgExt.isSuffixOf (coerceJpg name) = true) ∧
    (∀ name : Name, jpgExt.isSuffixOf name = false →
      coerceJpg name = rsplitHead name ++ jpgExt) ∧
    (∀ name : Name, '.' ∉ name → coerceJpg name = name ++ jpgExt) ∧
    coerceJpg ("a.b.c".toList) = "a.b.jpg".toList ∧
    coerceJpg ("photo".toList) = "photo.jpg".toList := by
  refine ⟨?_, ?_, ?_, by decide, by decide⟩
  · intro name
    rw [coerceJpg]
    by_cases hsuf : jpgExt.isSuffixOf name = true
    · rw [if_pos hsuf]; exact hsuf
    · rw [if_neg hsuf]
      exact List.isSuffixOf_iff_suffix.mpr (List.suffix_append _ _)
  · intro name h
    rw [coerceJpg, if_neg (by simp [h])]
  · intro name h
    have hs : ¬ jpgExt.isSuffixOf name = true := by
      intro hb
      obtain ⟨pre, hpre⟩ := List.isSuffixOf_iff_suffix.mp hb
      exact h (by rw [← hpre]; exact List.mem_append_right pre (by decide))
    rw [coerceJpg, if_neg hs, rsplitHead_no_dot name h]

/-- C9 witness: dotless name coercion at a concrete input. -/
theorem C9_jpg_extension_witness :
    coerceJpg ("readme".toList) = "readme".toList ++ jpgExt :=
  C9_jpg_extension.2.2.1 ("readme".toList) (by decide)

/-- C10: a fix-ratio request with save_to_gallery = false never changes
the filesystem (whatever the outcome), and on a successful decode the
response carries the processed bytes with gpano_injected = false and
null gallery/thumbnail URLs; metadata injection and thumbnailing are
skipped (the response does not depend on those effects). -/
theorem C10_no_save :
    (∀ (env : Env) (st : Store) (image : Option Bytes) (mode : String) (nm : Name),
      (apiFixRatio env st image mode nm false).2 = st) ∧
    (∀ (env : Env) (st : Store) (bytes : Bytes) (img : Img) (mode : String) (nm : Name),
      env.decode bytes = some img →
        apiFixRatio env st (some bytes) mode nm false =
          (.ok (env.encode (fixAspect env.resamp img mode blackBg).out)
            (pathStem nm ++ "_360.jpg".toList) false none none, st)) := by
  constructor
  · intro env st image mode nm
    cases image with
    | none => rfl
    | some bytes =>
      cases hdec : env.decode bytes with
      | none => simp [apiFixRatio, hdec]
      | some img => simp [apiFixRatio, hdec]
  · intro env st bytes img mode nm hdec
    simp [apiFixRatio, hdec]

/-- C10 witness: concrete no-save request against env1. -/
theorem C10_no_save_witness :
    apiFixRatio env1 store0 (some [9]) "pad" ("pano.png".toList) false =
      (.ok (env1.encode (fixAspect env1.resamp (constImg 500 1000 3) "pad" blackBg).out)
        (pathStem ("pano.png".toList) ++ "_360.jpg".toList) false none none, store0) :=
  C10_no_save.2 env1 store0 [9] (constImg 500 1000 3) "pad" ("pano.png".toList) rfl
